import Mathlib

/-!
Verification development for the memory-neo4j plugin of the openclaw
repository.  The definitions below are a shallow embedding, translated from
`src/extensions/memory-neo4j/index.ts` and the embeddings module
(`src/unnamed/part_000`, class `Embeddings`): the attention gates with their
noise-pattern table, the embedding truncation and batching, the
`memory_store` / `memory_forget` tool bodies, the `agent_end` auto-capture
hook, and the parameter validation of the `memory neo4j sleep` CLI command.
External collaborators (Neo4j store, embedding provider, importance rater,
message extractors) are passed in as oracle functions, fallible ones
returning `Except`.  JavaScript numbers are modelled as exact rationals
(plus explicit NaN / infinities where the code can produce them).
-/

set_option maxRecDepth 100000

-- ============================================================================
-- JS string primitives (character-list model of JS string operations)
-- ============================================================================

/-- The apostrophe character, used by some noise-pattern words. -/
def apostC : Char := Char.ofNat 39

/-- The backtick character, used by code-fence detection. -/
def btick : Char := Char.ofNat 96

/-- Left brace character. -/
def lbraceC : Char := Char.ofNat 123

/-- Membership in the JavaScript regex `\s` class (WhiteSpace plus
LineTerminator code points). -/
def jsSpaceChar (c : Char) : Bool :=
  c = ' ' || c = Char.ofNat 9 || c = Char.ofNat 10 || c = Char.ofNat 11 ||
  c = Char.ofNat 12 || c = Char.ofNat 13 || c = Char.ofNat 0xa0 ||
  c = Char.ofNat 0x1680 || (0x2000 ≤ c.toNat && c.toNat ≤ 0x200a) ||
  c = Char.ofNat 0x2028 || c = Char.ofNat 0x2029 || c = Char.ofNat 0x202f ||
  c = Char.ofNat 0x205f || c = Char.ofNat 0x3000 || c = Char.ofNat 0xfeff

/-- JS `String.prototype.trim`: strip leading and trailing whitespace. -/
def jsTrim (l : List Char) : List Char :=
  ((l.dropWhile jsSpaceChar).reverse.dropWhile jsSpaceChar).reverse

/-- Number of maximal runs of non-whitespace characters.  The `inRun` flag
records whether the previous character was part of a run. -/
def countRunsAux : Bool → List Char → Nat
  | _, [] => 0
  | inRun, c :: rest =>
    if jsSpaceChar c then countRunsAux false rest
    else (if inRun then 0 else 1) + countRunsAux true rest

/-- Length of the array produced by JS `s.split(/\s+/)`: one entry per
maximal non-whitespace run, plus a leading (resp. trailing) empty string
when the string starts (resp. ends) with whitespace; `"".split` gives
`[""]`. -/
def jsSplitWsLen (l : List Char) : Nat :=
  match l with
  | [] => 1
  | c :: _ =>
    countRunsAux false l + (if jsSpaceChar c then 1 else 0) +
      (match l.getLast? with
       | some d => if jsSpaceChar d then 1 else 0
       | none => 0)

/-- Index of the first occurrence of `needle` in `hay` (JS `indexOf` over a
substring), `none` when absent. -/
def findSubIdx (needle : List Char) : List Char → Option Nat
  | [] => if needle = [] then some 0 else none
  | c :: rest =>
    if needle.isPrefixOf (c :: rest) then some 0
    else (findSubIdx needle rest).map (· + 1)

/-- JS `lastIndexOf` for a single character, as an `Option` index
(JS returns `-1` for `none`). -/
def lastIdxOf (c : Char) : List Char → Option Nat
  | [] => none
  | x :: xs =>
    match lastIdxOf c xs with
    | some i => some (i + 1)
    | none => if x = c then some 0 else none

/-- JS `hay.includes(needle)` over character lists. -/
def containsSub (needle hay : List Char) : Bool := (findSubIdx needle hay).isSome

-- ============================================================================
-- A small regex engine (Brzozowski derivatives) for the noise patterns
-- ============================================================================

/-- One atom of a regex character class.  `litCI` and `rngCI` store their
characters lowercased and compare against the lowercased input (model of the
JS `i` flag). -/
inductive CCAtom where
  | lit (c : Char)
  | litCI (c : Char)
  | rng (lo hi : Char)
  | rngCI (lo hi : Char)
  | spaceA
  | nonspaceA
  | digitA
  | wordA
  | dotA
  | anyA
  | emojiA
deriving DecidableEq, Repr

/-- Conservative model of the JS `\p{Emoji}` property: exact on ASCII
(digits, `#` and `*` carry the Emoji property; letters and ASCII
punctuation do not); over-approximates the symbol and astral blocks, which
is harmless because every concrete input evaluated in this file is ASCII
text. -/
def isEmojiChar (c : Char) : Bool :=
  ('0' ≤ c && c ≤ '9') || c = '#' || c = '*' ||
  c = Char.ofNat 0xa9 || c = Char.ofNat 0xae ||
  (0x2000 ≤ c.toNat && c.toNat ≤ 0x3300) ||
  (0x1F000 ≤ c.toNat && c.toNat ≤ 0x1FAFF) ||
  c.toNat = 0xFE0F || (0x2190 ≤ c.toNat && c.toNat ≤ 0x21FF)

/-- Does character `c` match a class atom? -/
def CCAtom.matchesC (c : Char) : CCAtom → Bool
  | .lit d => c = d
  | .litCI d => c.toLower = d
  | .rng lo hi => lo ≤ c && c ≤ hi
  | .rngCI lo hi => lo ≤ c.toLower && c.toLower ≤ hi
  | .spaceA => jsSpaceChar c
  | .nonspaceA => !jsSpaceChar c
  | .digitA => '0' ≤ c && c ≤ '9'
  | .wordA =>
    ('a' ≤ c && c ≤ 'z') || ('A' ≤ c && c ≤ 'Z') ||
    ('0' ≤ c && c ≤ '9') || c = '_'
  | .dotA =>
    !(c = Char.ofNat 10 || c = Char.ofNat 13 ||
      c = Char.ofNat 0x2028 || c = Char.ofNat 0x2029)
  | .anyA => true
  | .emojiA => isEmojiChar c

/-- Regular expressions over character-class atoms. -/
inductive Re where
  | emp
  | eps
  | cls (atoms : List CCAtom)
  | alt (a b : Re)
  | cat (a b : Re)
  | star (a : Re)
deriving DecidableEq, Repr

/-- Does character `c` match the class `atoms`? -/
def ccMatch (atoms : List CCAtom) (c : Char) : Bool :=
  atoms.any (CCAtom.matchesC c)

/-- Does the regex accept the empty string? -/
def Re.nullable : Re → Bool
  | .emp => false
  | .eps => true
  | .cls _ => false
  | .alt a b => a.nullable || b.nullable
  | .cat a b => a.nullable && b.nullable
  | .star _ => true

/-- Smart alternation: absorb `emp`, collapse equal branches (keeps
derivatives of `.*r.*` search wrappers from growing). -/
def mkAlt : Re → Re → Re
  | .emp, b => b
  | a, .emp => a
  | a, b => if a = b then a else .alt a b

/-- Smart concatenation: `emp` annihilates, `eps` is the unit. -/
def mkCat : Re → Re → Re
  | .emp, _ => .emp
  | _, .emp => .emp
  | .eps, b => b
  | a, .eps => a
  | a, b => .cat a b

/-- Brzozowski derivative with respect to one character. -/
def Re.deriv : Re → Char → Re
  | .emp, _ => .emp
  | .eps, _ => .emp
  | .cls atoms, c => if ccMatch atoms c then .eps else .emp
  | .alt a b, c => mkAlt (a.deriv c) (b.deriv c)
  | .cat a b, c =>
    if a.nullable then mkAlt (mkCat (a.deriv c) b) (b.deriv c)
    else mkCat (a.deriv c) b
  | .star a, c => mkCat (a.deriv c) (.star a)

/-- Full-string match: fold the derivative over the input, test
nullability. -/
def reMatch (r : Re) (s : List Char) : Bool :=
  (s.foldl Re.deriv r).nullable

/-- How the JS `RegExp.test` uses a pattern: `full` for `^...$` patterns,
`prefixA` for `^...` patterns without `$`, `search` for unanchored
patterns. -/
inductive RxMode where
  | full
  | prefixA
  | search
deriving DecidableEq, Repr

/-- The class `[\s\S]` / whole-alphabet wildcard. -/
def anyStar : Re := .star (.cls [.anyA])

/-- JS `re.test(s)` for a pattern with the given anchoring mode. -/
def jsTest (p : Re × RxMode) (s : List Char) : Bool :=
  match p.2 with
  | .full => reMatch p.1 s
  | .prefixA => reMatch (.cat p.1 anyStar) s
  | .search => reMatch (.cat anyStar (.cat p.1 anyStar)) s

-- Combinators used to transcribe the pattern table.

/-- Case-insensitive single character. -/
def chCI (c : Char) : Re := .cls [.litCI c.toLower]

/-- Case-sensitive single character. -/
def chL (c : Char) : Re := .cls [.lit c]

/-- Case-insensitive literal string. -/
def strCI (s : String) : Re :=
  s.data.foldr (fun c r => .cat (chCI c) r) .eps

/-- Alternation of a list of regexes. -/
def altL (l : List Re) : Re := l.foldr .alt .emp

/-- Concatenation of a list of regexes. -/
def catL (l : List Re) : Re := l.foldr .cat .eps

/-- `r?` -/
def optR (r : Re) : Re := .alt .eps r

/-- `r+` -/
def plusR (r : Re) : Re := .cat r (.star r)

/-- `r{n}` -/
def repN : Nat → Re → Re
  | 0, _ => .eps
  | n + 1, r => .cat r (repN n r)

/-- `r{0,n}` -/
def repUpTo : Nat → Re → Re
  | 0, _ => .eps
  | n + 1, r => optR (.cat r (repUpTo n r))

/-- Case-insensitive word alternation. -/
def wordsCI (l : List String) : Re := altL (l.map strCI)

/-- `\s+` -/
def wsPlus : Re := plusR (.cls [.spaceA])

/-- `\s*` -/
def wsStar : Re := .star (.cls [.spaceA])

/-- `[.!?]*` -/
def punctTail : Re := .star (.cls [.lit '.', .lit '!', .lit '?'])

/-- `.` (dot: any character except line terminators). -/
def dotCls : Re := .cls [.dotA]

/-- A word with an interior apostrophe, e.g. given `"let" "s"` this is the
regex for the contraction of let and s. -/
def wordApos (a b : String) : Re := catL [strCI a, chL apostC, strCI b]

-- ============================================================================
-- The NOISE_PATTERNS table, transcribed pattern by pattern
-- ============================================================================

-- Greetings / acknowledgments (exact match, with optional punctuation):
-- ^(hi|hey|hello|yo|sup|ok|okay|sure|thanks|thank you|thx|ty|yep|yup|nope|
--   no|yes|yeah|cool|nice|great|got it|sounds good|perfect|alright|fine|
--   noted|ack|kk|k)\s*[.!?]*$   (flag i)
/-- Noise pattern 1: exact greetings and acknowledgments. -/
def npGreeting : Re :=
  catL [wordsCI ["hi", "hey", "hello", "yo", "sup", "ok", "okay", "sure",
      "thanks", "thank you", "thx", "ty", "yep", "yup", "nope", "no", "yes",
      "yeah", "cool", "nice", "great", "got it", "sounds good", "perfect",
      "alright", "fine", "noted", "ack", "kk", "k"],
    wsStar, punctTail]

-- Two-word affirmations:
-- ^(ok|okay|yes|yeah|yep|sure|no|nope|alright|right|fine|cool|nice|great)
--  \s+(great|good|sure|thanks|please|ok|fine|cool|yeah|perfect|noted|
--      absolutely|definitely|exactly)\s*[.!?]*$   (flag i)
/-- Noise pattern 2: two-word affirmations. -/
def npTwoWord : Re :=
  catL [wordsCI ["ok", "okay", "yes", "yeah", "yep", "sure", "no", "nope",
      "alright", "right", "fine", "cool", "nice", "great"],
    wsPlus,
    wordsCI ["great", "good", "sure", "thanks", "please", "ok", "fine",
      "cool", "yeah", "perfect", "noted", "absolutely", "definitely",
      "exactly"],
    wsStar, punctTail]

-- Deictic filler:
-- ^(ok[,.]?\s+)?(i(APOS ll|APOS m|APOS d|APOS ve)?\s+)?(just\s+)?
--  (need|want|got|have|let|let APOS s|let me|give me|send|do|did|try|check|
--  see|look at|test|take|get|go|use)\s+  [APOS denotes the apostrophe]
--  (it|that|this|those|these|them|some|one|the|a|an|me|him|her|us)
--  \s*(out|up|now|then|too|again|later|first|here|there|please)?\s*[.!?]*$
--  (flag i)
/-- Noise pattern 3: deictic filler. -/
def npDeictic : Re :=
  catL [optR (catL [strCI ("ok"), optR (.cls [.lit ',', .lit '.']), wsPlus]),
    optR (catL [chCI 'i',
      optR (altL [wordApos ("") ("ll"), wordApos ("") ("m"),
        wordApos ("") ("d"), wordApos ("") ("ve")]),
      wsPlus]),
    optR (catL [strCI ("just"), wsPlus]),
    altL [wordsCI ["need", "want", "got", "have", "let"],
      wordApos ("let") ("s"),
      wordsCI ["let me", "give me", "send", "do", "did", "try", "check",
        "see", "look at", "test", "take", "get", "go", "use"]],
    wsPlus,
    wordsCI ["it", "that", "this", "those", "these", "them", "some", "one",
      "the", "a", "an", "me", "him", "her", "us"],
    wsStar,
    optR (wordsCI ["out", "up", "now", "then", "too", "again", "later",
      "first", "here", "there", "please"]),
    wsStar, punctTail]

-- Short acknowledgments with trailing context:
-- ^(ok|okay|yes|yeah|yep|sure|no|nope|right|alright|fine|cool|nice|great|
--   perfect)[,.]?\s+.{0,20}$   (flag i)
/-- Noise pattern 4: short acknowledgment plus a brief trailer. -/
def npShortAck : Re :=
  catL [wordsCI ["ok", "okay", "yes", "yeah", "yep", "sure", "no", "nope",
      "right", "alright", "fine", "cool", "nice", "great", "perfect"],
    optR (.cls [.lit ',', .lit '.']),
    wsPlus,
    repUpTo 20 dotCls]

-- Conversational filler / interjections:
-- ^(hmm+|huh|haha|ha|lol|lmao|rofl|nah|meh|idk|brb|ttyl|omg|wow|whoa|welp|
--   oops|ooh|aah|ugh|bleh|pfft|smh|ikr|tbh|imo|fwiw|np|nvm|nm|wut|wat|wha|
--   heh|tsk|sigh|yay|woo+|boo|dang|darn|geez|gosh|sheesh|oof)\s*[.!?]*$
--  (flag i)
/-- Noise pattern 5: conversational interjections. -/
def npFiller : Re :=
  catL [altL [catL [strCI ("hmm"), .star (chCI 'm')],
      wordsCI ["huh", "haha", "ha", "lol", "lmao", "rofl", "nah", "meh",
        "idk", "brb", "ttyl", "omg", "wow", "whoa", "welp", "oops", "ooh",
        "aah", "ugh", "bleh", "pfft", "smh", "ikr", "tbh", "imo", "fwiw",
        "np", "nvm", "nm", "wut", "wat", "wha", "heh", "tsk", "sigh",
        "yay"],
      catL [strCI ("woo"), .star (chCI 'o')],
      wordsCI ["boo", "dang", "darn", "geez", "gosh", "sheesh", "oof"]],
    wsStar, punctTail]

-- ^\S{0,3}$
/-- Noise pattern 6: single-word or near-empty string. -/
def npNearEmpty : Re := repUpTo 3 (.cls [.nonspaceA])

-- ^[\p{Emoji}\s]+$   (flag u)
/-- Noise pattern 7: pure emoji. -/
def npPureEmoji : Re := plusR (.cls [.emojiA, .spaceA])

-- ^<[a-z-]+>[\s\S]*<\/[a-z-]+>$   (flag i)
/-- Noise pattern 8: inline system or XML markup. -/
def npMarkup : Re :=
  catL [chL '<', plusR (.cls [.rngCI 'a' 'z', .lit '-']), chL '>',
    anyStar,
    chL '<', chL '/', plusR (.cls [.rngCI 'a' 'z', .lit '-']), chL '>']

-- ^A new session was started via    (flag i, prefix)
/-- Noise pattern 9: session-reset banner. -/
def npNewSession : Re := strCI ("A new session was started via")

-- Read HEARTBEAT\.md if it exists   (flag i, unanchored)
/-- Noise pattern 10: heartbeat prompt. -/
def npHeartbeat : Re := strCI ("Read HEARTBEAT.md if it exists")

-- ^Pre-compaction memory flush   (flag i, prefix)
/-- Noise pattern 11: pre-compaction flush prompt. -/
def npPreCompaction : Re := strCI ("Pre-compaction memory flush")

-- ^System:\s*\[   (flag i, prefix)
/-- Noise pattern 12: system timestamp message. -/
def npSystemTs : Re := catL [strCI ("System:"), wsStar, chL '[']

-- ^\[cron:[0-9a-f-]+   (flag i, prefix)
/-- Noise pattern 13: cron job wrapper. -/
def npCron : Re :=
  catL [chL '[', strCI ("cron:"),
    plusR (.cls [.rng '0' '9', .rngCI 'a' 'f', .lit '-'])]

-- ^GatewayRestart:\s*\{   (flag i, prefix)
/-- Noise pattern 14: gateway-restart JSON payload. -/
def npGatewayRestart : Re :=
  catL [strCI ("GatewayRestart:"), wsStar, chL lbraceC]

-- ^\[\w{3}\s+\d{4}-\d{2}-\d{2}\s.*\]\s*A background task   (flag i, prefix)
/-- Noise pattern 15: background-task completion report. -/
def npBackgroundTask : Re :=
  catL [chL '[', repN 3 (.cls [.wordA]), wsPlus,
    repN 4 (.cls [.digitA]), chL '-', repN 2 (.cls [.digitA]), chL '-',
    repN 2 (.cls [.digitA]), .cls [.spaceA], .star dotCls, chL ']',
    wsStar, strCI ("A background task")]

/-- The ordered noise-pattern table (`NOISE_PATTERNS` in the source), each
with its anchoring mode. -/
def NOISE_PATTERNS : List (Re × RxMode) :=
  [(npGreeting, .full), (npTwoWord, .full), (npDeictic, .full),
   (npShortAck, .full), (npFiller, .full), (npNearEmpty, .full),
   (npPureEmoji, .full), (npMarkup, .full),
   (npNewSession, .prefixA), (npHeartbeat, .search),
   (npPreCompaction, .prefixA), (npSystemTs, .prefixA),
   (npCron, .prefixA), (npGatewayRestart, .prefixA),
   (npBackgroundTask, .prefixA)]

-- ============================================================================
-- Attention gates
-- ============================================================================

/-- Maximum user message length. -/
def MAX_CAPTURE_CHARS : Nat := 2000

/-- Minimum message length. -/
def MIN_CAPTURE_CHARS : Nat := 30

/-- Minimum user word count. -/
def MIN_WORD_COUNT : Nat := 5

/-- Count of characters in the range matched by the gate emoji counter
`[\u{1F300}-\u{1F9FF}]` (flag gu). -/
def emojiCount (l : List Char) : Nat :=
  l.countP (fun c => 0x1F300 ≤ c.toNat && c.toNat ≤ 0x1F9FF)

/-- The user-role attention gate, translated from `passesAttentionGate`. -/
def passesAttentionGate (text : String) : Bool :=
  let trimmed := jsTrim text.data
  if trimmed.length < MIN_CAPTURE_CHARS || trimmed.length > MAX_CAPTURE_CHARS then
    false
  else if jsSplitWsLen trimmed < MIN_WORD_COUNT then
    false
  else if containsSub ("<relevant-memories>").data trimmed ||
      containsSub ("<core-memory-refresh>").data trimmed then
    false
  else if NOISE_PATTERNS.any (fun p => jsTest p trimmed) then
    false
  else if emojiCount trimmed > 3 then
    false
  else
    true

/-- Maximum assistant message length. -/
def MAX_ASSISTANT_CAPTURE_CHARS : Nat := 1000

/-- Minimum assistant word count. -/
def MIN_ASSISTANT_WORD_COUNT : Nat := 10

/-- Total characters covered by the matches of the non-greedy global
code-fence regex (triple backtick, minimal body, triple backtick), mirroring
the `exec` loop in `passesAssistantAttentionGate`.  The fuel argument bounds
recursion; callers pass the string length. -/
def codeFenceChars (fuel : Nat) (l : List Char) : Nat :=
  match fuel with
  | 0 => 0
  | fuel + 1 =>
    match findSubIdx [btick, btick, btick] l with
    | none => 0
    | some i =>
      let after := l.drop (i + 3)
      match findSubIdx [btick, btick, btick] after with
      | none => 0
      | some j => (j + 6) + codeFenceChars fuel (after.drop (j + 3))

/-- The assistant-role attention gate, translated from
`passesAssistantAttentionGate`. -/
def passesAssistantAttentionGate (text : String) : Bool :=
  let trimmed := jsTrim text.data
  if trimmed.length < MIN_CAPTURE_CHARS ||
      trimmed.length > MAX_ASSISTANT_CAPTURE_CHARS then
    false
  else if jsSplitWsLen trimmed < MIN_ASSISTANT_WORD_COUNT then
    false
  else if 2 * codeFenceChars (trimmed.length + 1) trimmed > trimmed.length then
    -- codeChars > trimmed.length * 0.5, exactly (0.5 is exact in binary)
    false
  else if containsSub ("<tool_result>").data trimmed ||
      containsSub ("<tool_use>").data trimmed ||
      containsSub ("<function_call>").data trimmed then
    false
  else if containsSub ("<relevant-memories>").data trimmed ||
      containsSub ("<core-memory-refresh>").data trimmed then
    false
  else if NOISE_PATTERNS.any (fun p => jsTest p trimmed) then
    false
  else if emojiCount trimmed > 3 then
    false
  else
    true

/-- The role a message is gated as. -/
inductive Role where
  | user
  | assistant
deriving DecidableEq, Repr

/-- The attention gate as one function of role and text. -/
def attentionGate : Role → String → Bool
  | .user => passesAttentionGate
  | .assistant => passesAssistantAttentionGate

-- ============================================================================
-- Embeddings (class `Embeddings` in the embeddings module)
-- ============================================================================

/-- The two embedding backends. -/
inductive Provider where
  | openai
  | ollama
deriving DecidableEq, Repr

/-- `truncateToContext`: cut the text to `contextLength * 3` characters,
moving the cut back to the last space when that space sits past 80% of the
limit.  The JS comparison `lastSpace > maxChars * 0.8` is modelled exactly
as `5 * lastSpace > 4 * maxChars`: both sides are integers scaled by 5, and
the double rounding of `maxChars * 0.8` never crosses an integer for any
realistic `maxChars`, so the integer comparison agrees with the float one.
JS `lastIndexOf` returning `-1` is the `none` branch. -/
def truncateToContext (contextLength : Nat) (text : List Char) : List Char :=
  let maxChars := contextLength * 3
  if text.length ≤ maxChars then text
  else
    let truncated := text.take maxChars
    match lastIdxOf ' ' truncated with
    | some i => if 5 * i > 4 * maxChars then truncated.take i else truncated
    | none => truncated

/-- `Embeddings.embed`: truncate, then hand the input to the backend call
for the configured provider.  The two backend calls are external
collaborators, passed as oracles. -/
def Embeddings.embed (contextLength : Nat) (provider : Provider)
    (ollamaEmbed : List Char → Except String (List ℚ))
    (openaiEmbed : List Char → Except String (List ℚ))
    (text : List Char) : Except String (List ℚ) :=
  let input := truncateToContext contextLength text
  match provider with
  | .ollama => ollamaEmbed input
  | .openai => openaiEmbed input

/-- Stable insertion of an indexed embedding into a list sorted by index
(insertion after equal indexes, like the stable JS `toSorted`). -/
def insertByIdx (x : Nat × List ℚ) : List (Nat × List ℚ) → List (Nat × List ℚ)
  | [] => [x]
  | y :: ys => if x.1 < y.1 then x :: y :: ys else y :: insertByIdx x ys

/-- Stable sort of indexed embeddings by ascending index, the model of
`response.data.toSorted((a, b) => a.index - b.index)`. -/
def sortByIdx (l : List (Nat × List ℚ)) : List (Nat × List ℚ) :=
  l.foldr insertByIdx []

/-- `Embeddings.embedBatch`: empty input short-circuits to `[]`; every text
is truncated; for Ollama each text gets its own backend call
(`Promise.allSettled`), a rejected item is replaced by the empty placeholder
vector; for OpenAI the whole batch is one backend call whose response rows
(carrying their input index) are sorted by index — a rejection of that
single call propagates. -/
def Embeddings.embedBatch (contextLength : Nat) (provider : Provider)
    (ollamaEmbed : List Char → Except String (List ℚ))
    (openaiBatch : List (List Char) → Except String (List (Nat × List ℚ)))
    (texts : List (List Char)) : Except String (List (List ℚ)) :=
  if texts.isEmpty then .ok []
  else
    let truncated := texts.map (truncateToContext contextLength)
    match provider with
    | .ollama =>
      .ok (truncated.map (fun t =>
        match ollamaEmbed t with
        | .ok v => v
        | .error _ => []))
    | .openai =>
      match openaiBatch truncated with
      | .error e => .error e
      | .ok data => .ok ((sortByIdx data).map (·.2))

-- ============================================================================
-- Memory records and the memory_store / memory_forget tool bodies
-- ============================================================================

/-- A memory node as written by `db.storeMemory`. -/
structure MemoryRec where
  id : String
  text : String
  embedding : List ℚ
  importance : ℚ
  category : String
  source : String
  extractionStatus : String
  agentId : String
  sessionKey : Option String
deriving DecidableEq, Repr

/-- A hit returned by `db.findSimilar`. -/
structure SimilarHit where
  id : String
  text : String
deriving DecidableEq, Repr

/-- Outcome reported in the `details` of `memory_store`. -/
inductive StoreOutcome where
  | duplicate (existingId existingText : String)
  | created (id : String)
deriving DecidableEq, Repr

/-- The `memory_store` tool `execute` body.  `embed` and `findSimilar` are
the provider and store collaborators; `freshId` is the `randomUUID()` value.
The second component of the result is the list of memories written by
`db.storeMemory` during the call. -/
def memoryStoreExecute
    (embed : String → Except String (List ℚ))
    (findSimilar : List ℚ → ℚ → Nat → Except String (List SimilarHit))
    (freshId : String) (extractionEnabled : Bool)
    (agentId : String) (sessionKey : Option String)
    (text : String) (importance : ℚ) (category : String) :
    Except String (StoreOutcome × List MemoryRec) :=
  match embed text with
  | .error e => .error e
  | .ok vector =>
    match findSimilar vector (19 / 20) 1 with
    | .error e => .error e
    | .ok (hit :: _) => .ok (.duplicate hit.id hit.text, [])
    | .ok [] =>
      .ok (.created freshId,
        [{ id := freshId, text := text, embedding := vector,
           importance := min 1 (max 0 importance), category := category,
           source := "user",
           extractionStatus := if extractionEnabled then ("pending") else ("skipped"),
           agentId := agentId, sessionKey := sessionKey }])

/-- A hit returned by `db.vectorSearch` (id, text, category, score). -/
structure SearchHit where
  id : String
  text : String
  category : String
  score : ℚ
deriving DecidableEq, Repr

/-- Outcome reported in the `details` of `memory_forget`. -/
inductive ForgetOutcome where
  | deleted (id : String)
  | notFound (id : String)
  | zeroFound
  | candidates (hits : List SearchHit)
  | missingParam
deriving DecidableEq, Repr

/-- One I/O call issued by the `memory_forget` body, in order. -/
inductive ForgetEffect where
  | embedCall (query : String)
  | searchCall (limit : Nat) (threshold : ℚ)
  | deleteCall (id : String)
deriving DecidableEq, Repr

/-- The query branch of `memory_forget` (search-based delete). -/
def forgetByQuery
    (deleteMem : String → Except String Bool)
    (embed : String → Except String (List ℚ))
    (vectorSearch : List ℚ → Nat → ℚ → Except String (List SearchHit))
    (query : String) :
    Except String ForgetOutcome × List ForgetEffect :=
  match embed query with
  | .error e => (.error e, [.embedCall query])
  | .ok vector =>
    match vectorSearch vector 5 (7 / 10) with
    | .error e => (.error e, [.embedCall query, .searchCall 5 (7 / 10)])
    | .ok [] => (.ok .zeroFound, [.embedCall query, .searchCall 5 (7 / 10)])
    | .ok [r] =>
      if r.score > 9 / 10 then
        match deleteMem r.id with
        | .error e =>
          (.error e,
           [.embedCall query, .searchCall 5 (7 / 10), .deleteCall r.id])
        | .ok _ =>
          (.ok (.deleted r.id),
           [.embedCall query, .searchCall 5 (7 / 10), .deleteCall r.id])
      else
        (.ok (.candidates [r]), [.embedCall query, .searchCall 5 (7 / 10)])
    | .ok rs => (.ok (.candidates rs), [.embedCall query, .searchCall 5 (7 / 10)])

/-- The `memory_forget` tool `execute` body.  The `Option String`
parameters model the optional JS parameters; JS truthiness makes the empty
string count as absent.  The second component lists the I/O calls
performed. -/
def memoryForgetExecute
    (deleteMem : String → Except String Bool)
    (embed : String → Except String (List ℚ))
    (vectorSearch : List ℚ → Nat → ℚ → Except String (List SearchHit))
    (memoryId query : Option String) :
    Except String ForgetOutcome × List ForgetEffect :=
  match memoryId with
  | some mid =>
    if mid = "" then
      match query with
      | some q =>
        if q = "" then (.ok .missingParam, [])
        else forgetByQuery deleteMem embed vectorSearch q
      | none => (.ok .missingParam, [])
    else
      match deleteMem mid with
      | .error e => (.error e, [.deleteCall mid])
      | .ok false => (.ok (.notFound mid), [.deleteCall mid])
      | .ok true => (.ok (.deleted mid), [.deleteCall mid])
  | none =>
    match query with
    | some q =>
      if q = "" then (.ok .missingParam, [])
      else forgetByQuery deleteMem embed vectorSearch q
    | none => (.ok .missingParam, [])

-- ============================================================================
-- The agent_end auto-capture hook
-- ============================================================================

/-- One iteration of the user-message loop of the auto-capture hook: embed,
dedup-check, rate, store.  Returns `some` of the stored memory, `none` when
the item was skipped as a duplicate, `error` when one of the collaborator
calls threw (the hook catches this per item). -/
def captureUserItem
    (embed : String → Except String (List ℚ))
    (findSimilar : List ℚ → ℚ → Nat → Except String (List SimilarHit))
    (rate : String → Except String ℚ)
    (store : MemoryRec → Except String Unit)
    (extractionEnabled : Bool) (agentId : String) (sessionKey : Option String)
    (uuid : String → String) (text : String) :
    Except String (Option MemoryRec) :=
  match embed text with
  | .error e => .error e
  | .ok vector =>
    match findSimilar vector (19 / 20) 1 with
    | .error e => .error e
    | .ok (_ :: _) => .ok none
    | .ok [] =>
      match rate text with
      | .error e => .error e
      | .ok importance =>
        let m : MemoryRec :=
          { id := uuid text, text := text, embedding := vector,
            importance := importance, category := "other",
            source := "auto-capture",
            extractionStatus := if extractionEnabled then ("pending") else ("skipped"),
            agentId := agentId, sessionKey := sessionKey }
        match store m with
        | .error e => .error e
        | .ok _ => .ok (some m)

/-- One iteration of the assistant-message loop of the auto-capture hook:
rate first, keep only importance ≥ 0.7, embed, dedup-check, store with the
importance capped at 0.4. -/
def captureAssistantItem
    (embed : String → Except String (List ℚ))
    (findSimilar : List ℚ → ℚ → Nat → Except String (List SimilarHit))
    (rate : String → Except String ℚ)
    (store : MemoryRec → Except String Unit)
    (extractionEnabled : Bool) (agentId : String) (sessionKey : Option String)
    (uuid : String → String) (text : String) :
    Except String (Option MemoryRec) :=
  match rate text with
  | .error e => .error e
  | .ok importance =>
    if importance < 7 / 10 then .ok none
    else
      match embed text with
      | .error e => .error e
      | .ok vector =>
        match findSimilar vector (19 / 20) 1 with
        | .error e => .error e
        | .ok (_ :: _) => .ok none
        | .ok [] =>
          let m : MemoryRec :=
            { id := uuid text, text := text, embedding := vector,
              importance := min importance (2 / 5), category := "other",
              source := "auto-capture-assistant",
              extractionStatus := if extractionEnabled then ("pending") else ("skipped"),
              agentId := agentId, sessionKey := sessionKey }
          match store m with
          | .error e => .error e
          | .ok _ => .ok (some m)

/-- The per-item `try/catch` loop of the hook: a failed item is logged and
skipped, every other item is still processed, stored memories are collected
in order. -/
def capturedList (f : String → Except String (Option MemoryRec)) :
    List String → List MemoryRec
  | [] => []
  | t :: ts =>
    match f t with
    | .ok (some m) => m :: capturedList f ts
    | .ok none => capturedList f ts
    | .error _ => capturedList f ts

/-- The `agent_end` auto-capture hook body.  Messages are an opaque type;
`extractUser` / `extractAssistant` are the pure extractor collaborators.
The returned list holds the memories written during the run; the hook itself
being `Except`-valued records whether it raised to the host. -/
def agentEndHook {α : Type}
    (embed : String → Except String (List ℚ))
    (findSimilar : List ℚ → ℚ → Nat → Except String (List SimilarHit))
    (rate : String → Except String ℚ)
    (store : MemoryRec → Except String Unit)
    (extractUser extractAssistant : List α → List String)
    (extractionEnabled : Bool) (agentId : String) (sessionKey : Option String)
    (uuid : String → String) (success : Bool) (messages : List α) :
    Except String (List MemoryRec) :=
  if !success || messages.isEmpty then .ok []
  else
    let retained := (extractUser messages).filter passesAttentionGate
    let storedUser := capturedList
      (captureUserItem embed findSimilar rate store extractionEnabled
        agentId sessionKey uuid) retained
    let retainedAssistant :=
      (extractAssistant messages).filter passesAssistantAttentionGate
    let storedAssistant := capturedList
      (captureAssistantItem embed findSimilar rate store extractionEnabled
        agentId sessionKey uuid) retainedAssistant
    .ok (storedUser ++ storedAssistant)

-- ============================================================================
-- Sleep-cycle CLI parameter validation
-- ============================================================================

/-- A JavaScript number: NaN, the two infinities, or an exact rational. -/
inductive JSNum where
  | nan
  | posInf
  | negInf
  | num (q : ℚ)
deriving DecidableEq, Repr

/-- `Number.isNaN`. -/
def JSNum.isNaN : JSNum → Bool
  | .nan => true
  | _ => false

/-- JS `x <= c` for a rational constant `c` (false on NaN). -/
def JSNum.leQ : JSNum → ℚ → Bool
  | .nan, _ => false
  | .posInf, _ => false
  | .negInf, _ => true
  | .num q, c => q ≤ c

/-- JS `x < c` for a rational constant `c` (false on NaN). -/
def JSNum.ltQ : JSNum → ℚ → Bool
  | .nan, _ => false
  | .posInf, _ => false
  | .negInf, _ => true
  | .num q, c => q < c

/-- JS `x > c` for a rational constant `c` (false on NaN). -/
def JSNum.gtQ : JSNum → ℚ → Bool
  | .nan, _ => false
  | .posInf, _ => true
  | .negInf, _ => false
  | .num q, c => q > c

/-- Is the character an ASCII digit? -/
def isDigitC (c : Char) : Bool := '0' ≤ c && c ≤ '9'

/-- Value of a list of ASCII digits. -/
def digitsToNat (l : List Char) : Nat :=
  l.foldl (fun a c => 10 * a + (c.toNat - 48)) 0

/-- JS `parseInt(s, 10)`: skip whitespace, optional sign, longest run of
digits; NaN when there is no digit; trailing garbage is ignored. -/
def jsParseInt (s : String) : JSNum :=
  let l := s.data.dropWhile jsSpaceChar
  let sgn : ℚ := match l with
    | '-' :: _ => -1
    | _ => 1
  let l1 := match l with
    | '-' :: r => r
    | '+' :: r => r
    | _ => l
  let ds := l1.takeWhile isDigitC
  if ds.isEmpty then .nan else .num (sgn * (digitsToNat ds : ℚ))

/-- JS `parseFloat(s)`: skip whitespace, optional sign, `Infinity` or
decimal digits with optional fraction and exponent; NaN when no digit is
consumed; trailing garbage is ignored. -/
def jsParseFloat (s : String) : JSNum :=
  let l := s.data.dropWhile jsSpaceChar
  let sgn : ℚ := match l with
    | '-' :: _ => -1
    | _ => 1
  let l1 := match l with
    | '-' :: r => r
    | '+' :: r => r
    | _ => l
  if ("Infinity").data.isPrefixOf l1 then
    if sgn = 1 then .posInf else .negInf
  else
    let intd := l1.takeWhile isDigitC
    let l2 := l1.drop intd.length
    let fracd := match l2 with
      | '.' :: r => r.takeWhile isDigitC
      | _ => []
    let l3 := match l2 with
      | '.' :: r => r.drop fracd.length
      | _ => l2
    if intd.isEmpty && fracd.isEmpty then .nan
    else
      let base : ℚ := (digitsToNat intd : ℚ) +
        (digitsToNat fracd : ℚ) / (10 : ℚ) ^ fracd.length
      let expv : ℤ := match l3 with
        | c :: r =>
          if c = 'e' || c = 'E' then
            let esgn : ℤ := match r with
              | '-' :: _ => -1
              | _ => 1
            let r2 := match r with
              | '-' :: r3 => r3
              | '+' :: r3 => r3
              | _ => r
            let eds := r2.takeWhile isDigitC
            if eds.isEmpty then 0 else esgn * (digitsToNat eds : ℤ)
          else 0
        | [] => 0
      .num (sgn * base * (10 : ℚ) ^ expv)

/-- The string options of `memory neo4j sleep` as commander delivers them. -/
structure SleepOpts where
  agent : Option String := none
  dedupThreshold : Option String := none
  pareto : Option String := none
  promotionMinAge : Option String := none
  decayThreshold : Option String := none
  decayHalfLife : Option String := none
  batchSize : Option String := none
  delay : Option String := none
deriving DecidableEq, Repr

/-- `opts.x ? parse(opts.x) : undefined` — JS truthiness makes the empty
string count as absent. -/
def optNum (f : String → JSNum) : Option String → Option JSNum
  | none => none
  | some s => if s = "" then none else some (f s)

/-- One validation guard: `x != null && (Number.isNaN(x) || p x)`. -/
def badOpt (v : Option JSNum) (p : JSNum → Bool) : Bool :=
  match v with
  | some n => n.isNaN || p n
  | none => false

/-- Result of the sleep command action: either an early validation rejection
(`console.error` and return, before `db.ensureInitialized()` and before
`runSleepCycle` — so before any I/O), or a run of the sleep cycle with the
parsed parameters. -/
inductive SleepCliResult where
  | validationError (msg : String)
  | run (agent : Option String)
      (dedupThreshold pareto promotionMinAge decayThreshold decayHalfLife
        batchSize delay : Option JSNum)
deriving DecidableEq, Repr

/-- The parameter parsing and validation of the `memory neo4j sleep` CLI
action, translated check by check and in order.  Note the source parses
`--dedup-threshold` inside the `runSleepCycle` argument list and never
validates it. -/
def sleepCliAction (o : SleepOpts) : SleepCliResult :=
  let batchSize := optNum jsParseInt o.batchSize
  let delay := optNum jsParseInt o.delay
  let decayHalfLife := optNum jsParseInt o.decayHalfLife
  let decayThreshold := optNum jsParseFloat o.decayThreshold
  let pareto := optNum jsParseFloat o.pareto
  let promotionMinAge := optNum jsParseInt o.promotionMinAge
  if badOpt batchSize (fun n => n.leQ 0) then
    .validationError ("Error: --batch-size must be greater than 0")
  else if badOpt delay (fun n => n.ltQ 0) then
    .validationError ("Error: --delay must be >= 0")
  else if badOpt decayHalfLife (fun n => n.leQ 0) then
    .validationError ("Error: --decay-half-life must be greater than 0")
  else if badOpt decayThreshold (fun n => n.ltQ 0 || n.gtQ 1) then
    .validationError ("Error: --decay-threshold must be between 0 and 1")
  else if badOpt pareto (fun n => n.ltQ 0 || n.gtQ 1) then
    .validationError ("Error: --pareto must be between 0 and 1")
  else if badOpt promotionMinAge (fun n => n.ltQ 0) then
    .validationError ("Error: --promotion-min-age must be >= 0")
  else
    .run o.agent (optNum jsParseFloat o.dedupThreshold) pareto promotionMinAge
      decayThreshold decayHalfLife batchSize delay

-- ============================================================================
-- Theorems for the claims
-- ============================================================================

/-- C3: the user-role attention gate rejects the input consisting of the two
letters h i, and accepts the 103-character migration sentence (it satisfies
the length floor and ceiling and the minimum word count and matches no noise
pattern, so the gate returns true). -/
theorem c3_gate_concrete :
    passesAttentionGate ("hi") = false ∧
    passesAttentionGate
      ("I think we should migrate the database to a managed service next quarter because of the licensing costs") = true :=
  ⟨by decide, by decide⟩

/-- C7: the attention gate is a pure deterministic function of text and
role: two evaluations on the same input always agree, and filtering a list
of messages with the gate twice gives the same result as filtering once
(idempotence).  Purity and absence of I/O hold by construction: the gate is
embedded as a total function of its text argument alone. -/
theorem c7_gate_pure (r : Role) (t : String) (l : List String) :
    attentionGate r t = attentionGate r t ∧
    (l.filter (attentionGate r)).filter (attentionGate r) =
      l.filter (attentionGate r) := by
  refine ⟨rfl, ?_⟩
  induction l with
  | nil => rfl
  | cons x xs ih =>
    by_cases h : attentionGate r x = true
    · simp [h, ih]
    · simp [h, ih]

/-- C1: in `memory_store`, when the similarity search at threshold 0.95
returns at least one existing memory the call reports `duplicate` with that
id of that memory and writes nothing; when it returns none the call writes exactly
one memory carrying the fresh id and reports `created` with that id. -/
theorem c1_memory_store
    (embed : String → Except String (List ℚ))
    (findSimilar : List ℚ → ℚ → Nat → Except String (List SimilarHit))
    (freshId : String) (ee : Bool) (agentId : String)
    (sk : Option String) (text : String) (importance : ℚ) (category : String)
    (vector : List ℚ) (hits : List SimilarHit)
    (he : embed text = .ok vector)
    (hf : findSimilar vector (19 / 20) 1 = .ok hits) :
    (∀ hit rest, hits = hit :: rest →
      memoryStoreExecute embed findSimilar freshId ee agentId sk text
        importance category = .ok (.duplicate hit.id hit.text, [])) ∧
    (hits = [] →
      memoryStoreExecute embed findSimilar freshId ee agentId sk text
        importance category =
        .ok (.created freshId,
          [{ id := freshId, text := text, embedding := vector,
             importance := min 1 (max 0 importance), category := category,
             source := "user",
             extractionStatus := if ee then ("pending") else ("skipped"),
             agentId := agentId, sessionKey := sk }])) := by
  constructor
  · rintro hit rest rfl
    simp only [memoryStoreExecute, he, hf]
  · rintro rfl
    simp only [memoryStoreExecute, he, hf]

/-- Witness for C1 at concrete inputs: with a store reporting no similar
memory, the call creates the memory under the fresh id. -/
theorem c1_memory_store_witness :
    memoryStoreExecute (fun _ => .ok [1]) (fun _ _ _ => .ok [])
      ("id-1") true ("default") none ("remember this fact") (7 / 10) ("other") =
      .ok (.created ("id-1"),
        [{ id := ("id-1"), text := ("remember this fact"), embedding := [1],
           importance := min 1 (max 0 (7 / 10 : ℚ)), category := ("other"),
           source := "user", extractionStatus := if true then ("pending") else ("skipped"),
           agentId := ("default"), sessionKey := none }]) :=
  (c1_memory_store (fun _ => .ok [1]) (fun _ _ _ => .ok []) ("id-1") true
    ("default") none ("remember this fact") (7 / 10) ("other") [1] []
    rfl rfl).2 rfl

/-- C8: every memory written by a `memory_store` call with numeric
importance `x` carries importance `min 1 (max 0 x)`, which lies in the
interval from 0 to 1. -/
theorem c8_importance_clamped
    (embed : String → Except String (List ℚ))
    (findSimilar : List ℚ → ℚ → Nat → Except String (List SimilarHit))
    (freshId : String) (ee : Bool) (agentId : String)
    (sk : Option String) (text : String) (x : ℚ) (category : String)
    (r : StoreOutcome) (writes : List MemoryRec) (m : MemoryRec)
    (hr : memoryStoreExecute embed findSimilar freshId ee agentId sk text x
      category = .ok (r, writes))
    (hm : m ∈ writes) :
    m.importance = min 1 (max 0 x) ∧ 0 ≤ m.importance ∧ m.importance ≤ 1 := by
  unfold memoryStoreExecute at hr
  split at hr
  · cases hr
  · split at hr
    · cases hr
    · simp only [Except.ok.injEq, Prod.mk.injEq] at hr
      rw [← hr.2] at hm
      cases hm
    · simp only [Except.ok.injEq, Prod.mk.injEq] at hr
      rw [← hr.2] at hm
      rcases List.mem_singleton.mp hm with rfl
      exact ⟨rfl, le_min (by norm_num) (le_max_left 0 x), min_le_left 1 _⟩

/-- The memory record created by the C8 witness run. -/
def c8WitnessMem : MemoryRec :=
  { id := "id-2", text := "t", embedding := [1],
    importance := min 1 (max 0 (3 / 2 : ℚ)), category := "other",
    source := "user", extractionStatus := "skipped",
    agentId := "default", sessionKey := none }

/-- Witness for C8 at concrete inputs: importance 3/2 is stored clamped to
the unit interval. -/
theorem c8_importance_clamped_witness :
    c8WitnessMem.importance = min 1 (max 0 (3 / 2 : ℚ)) ∧
      0 ≤ c8WitnessMem.importance ∧ c8WitnessMem.importance ≤ 1 :=
  c8_importance_clamped (fun _ => .ok [1]) (fun _ _ _ => .ok []) ("id-2")
    false ("default") none ("t") (3 / 2) ("other") (.created ("id-2"))
    [c8WitnessMem] c8WitnessMem rfl (List.mem_singleton.mpr rfl)

/-- C2 counterexample: with the OpenAI provider, the failure of the single
batch provider call makes `embedBatch` itself fail on the non-empty batch
containing the one-character text a — the claim that the call never throws
for the whole batch for both providers is false. -/
theorem c2_embedBatch_counterexample :
    Embeddings.embedBatch 8192 .openai (fun _ => .ok [1])
      (fun _ => .error ("boom")) [("a").data] = .error ("boom") := by
  rfl

/-- C2 (amended): for the Ollama provider, `embedBatch` returns a list of
the same length as the input, with the embedding of each text at the
position of its source text, a failed item replaced by the empty placeholder
vector, and never fails as a whole; for the OpenAI provider the truncated
texts are sent in one batch call whose failure propagates to the whole
call. -/
theorem c2_embedBatch_order (cl : Nat)
    (te : List Char → Except String (List ℚ))
    (ob : List (List Char) → Except String (List (Nat × List ℚ)))
    (texts : List (List Char)) (i : Nat) (t : List Char)
    (hi : texts.get? i = some t) :
    (∃ res, Embeddings.embedBatch cl .ollama te ob texts = .ok res ∧
      res.length = texts.length ∧
      res.get? i = some (match te (truncateToContext cl t) with
        | .ok v => v
        | .error _ => [])) ∧
    (∀ e, ob (texts.map (truncateToContext cl)) = .error e →
      Embeddings.embedBatch cl .openai te ob texts = .error e) := by
  have hne : texts.isEmpty = false := by
    cases texts with
    | nil => cases hi
    | cons a b => rfl
  constructor
  · refine ⟨(texts.map (truncateToContext cl)).map (fun t =>
      match te t with
      | .ok v => v
      | .error _ => []), ?_, ?_, ?_⟩
    · simp only [Embeddings.embedBatch, hne, Bool.false_eq_true, if_false]
    · simp only [List.length_map]
    · rw [List.map_map, List.get?_map, hi]
      rfl
  · intro e he
    simp only [Embeddings.embedBatch, hne, Bool.false_eq_true, if_false, he]

/-- Witness oracle for C2: the per-text Ollama call. -/
def c2te : List Char → Except String (List ℚ) := fun _ => .ok [1]

/-- Witness oracle for C2: a failing OpenAI batch call. -/
def c2ob : List (List Char) → Except String (List (Nat × List ℚ)) :=
  fun _ => .error ("bad")

/-- Witness for C2 at a concrete one-element batch. -/
theorem c2_embedBatch_order_witness :
    (∃ res, Embeddings.embedBatch 1 .ollama c2te c2ob [("ab").data] = .ok res ∧
      res.length = [("ab").data].length ∧
      res.get? 0 = some (match c2te (truncateToContext 1 (("ab").data)) with
        | .ok v => v
        | .error _ => [])) ∧
    (∀ e, c2ob ([("ab").data].map (truncateToContext 1)) = .error e →
      Embeddings.embedBatch 1 .openai c2te c2ob [("ab").data] = .error e) :=
  c2_embedBatch_order 1 c2te c2ob [("ab").data] 0 (("ab").data) rfl

/-- The index returned by `lastIdxOf` is in range and points at the searched
character. -/
theorem lastIdxOf_spec (c : Char) :
    ∀ (l : List Char) (i : Nat), lastIdxOf c l = some i →
      i < l.length ∧ l.get? i = some c := by
  intro l
  induction l with
  | nil => intro i h; cases h
  | cons x xs ih =>
    intro i h
    unfold lastIdxOf at h
    cases hx : lastIdxOf c xs with
    | some j =>
      rw [hx] at h
      cases h
      obtain ⟨h1, h2⟩ := ih j hx
      exact ⟨Nat.succ_lt_succ h1, h2⟩
    | none =>
      rw [hx] at h
      by_cases hxc : x = c
      · rw [if_pos hxc] at h
        cases h
        exact ⟨Nat.succ_pos _, by rw [hxc]; rfl⟩
      · rw [if_neg hxc] at h
        cases h

/-- The property asserted by the claim for a truncated transmission,
modelled from the words of the claim: the cut is the whole input or falls right
before a space of the input. -/
def endsAtWordBoundary (text res : List Char) : Prop :=
  res.length = text.length ∨ text.get? res.length = some ' '

/-- C6 counterexample: with context length 1 (3-character limit), the
four-character spaceless input aaaa is transmitted as its hard 3-character
cut aaa, which does not end at a word boundary — the claim that every
truncated transmission ends at a word boundary is false. -/
theorem c6_truncate_counterexample :
    truncateToContext 1 (("aaaa").data) = ("aaa").data ∧
    ¬ endsAtWordBoundary (("aaaa").data) (truncateToContext 1 (("aaaa").data)) := by
  constructor
  · rfl
  · intro h
    rcases h with h | h
    · exact absurd h (by decide)
    · exact absurd h (by decide)

/-- C6 (amended): `embed` and `embedBatch` transmit exactly
`truncateToContext` of each input to the provider; the transmitted text is a
prefix of the input of length at most contextLength * 3; an input within the
limit is transmitted unchanged; and when truncation occurs the cut falls at
the last space of the truncated window provided that space sits past 80% of
the limit (so the transmitted text ends right before a space of the input);
otherwise the transmission is the hard cut, which may split a word. -/
theorem c6_truncate_props (cl : Nat)
    (oe oo : List Char → Except String (List ℚ))
    (ob : List (List Char) → Except String (List (Nat × List ℚ)))
    (text : List Char) (texts : List (List Char)) :
    Embeddings.embed cl .ollama oe oo text = oe (truncateToContext cl text) ∧
    Embeddings.embed cl .openai oe oo text = oo (truncateToContext cl text) ∧
    (texts ≠ [] →
      Embeddings.embedBatch cl .openai oe ob texts =
        match ob (texts.map (truncateToContext cl)) with
        | .error e => .error e
        | .ok data => .ok ((sortByIdx data).map (·.2))) ∧
    (∃ suffix, truncateToContext cl text ++ suffix = text) ∧
    (truncateToContext cl text).length ≤ cl * 3 ∧
    (text.length ≤ cl * 3 → truncateToContext cl text = text) ∧
    (∀ i, ¬ text.length ≤ cl * 3 →
      lastIdxOf ' ' (text.take (cl * 3)) = some i →
      5 * i > 4 * (cl * 3) →
      endsAtWordBoundary text (truncateToContext cl text)) := by
  refine ⟨rfl, rfl, ?_, ?_, ?_, ?_, ?_⟩
  · intro hne
    have h : texts.isEmpty = false := by
      cases texts with
      | nil => exact absurd rfl hne
      | cons a b => rfl
    simp only [Embeddings.embedBatch, h, Bool.false_eq_true, if_false]
  · by_cases h : text.length ≤ cl * 3
    · rw [show truncateToContext cl text = text from by
        simp only [truncateToContext]; rw [if_pos h]]
      exact ⟨[], List.append_nil _⟩
    · cases hls : lastIdxOf ' ' (text.take (cl * 3)) with
      | none =>
        rw [show truncateToContext cl text = text.take (cl * 3) from by
          simp only [truncateToContext]; rw [if_neg h, hls]]
        exact ⟨text.drop (cl * 3), List.take_append_drop _ _⟩
      | some i =>
        have hres : truncateToContext cl text =
            if 5 * i > 4 * (cl * 3) then (text.take (cl * 3)).take i
            else text.take (cl * 3) := by
          simp only [truncateToContext]; rw [if_neg h, hls]
        by_cases hgt : 5 * i > 4 * (cl * 3)
        · rw [hres, if_pos hgt, List.take_take]
          have hi : i < (text.take (cl * 3)).length :=
            (lastIdxOf_spec ' ' _ i hls).1
          rw [List.length_take] at hi
          have hmin : min i (cl * 3) = i := by omega
          rw [hmin]
          exact ⟨text.drop i, List.take_append_drop _ _⟩
        · rw [hres, if_neg hgt]
          exact ⟨text.drop (cl * 3), List.take_append_drop _ _⟩
  · by_cases h : text.length ≤ cl * 3
    · rw [show truncateToContext cl text = text from by
        simp only [truncateToContext]; rw [if_pos h]]
      exact h
    · cases hls : lastIdxOf ' ' (text.take (cl * 3)) with
      | none =>
        rw [show truncateToContext cl text = text.take (cl * 3) from by
          simp only [truncateToContext]; rw [if_neg h, hls]]
        simp [List.length_take]
      | some i =>
        have hres : truncateToContext cl text =
            if 5 * i > 4 * (cl * 3) then (text.take (cl * 3)).take i
            else text.take (cl * 3) := by
          simp only [truncateToContext]; rw [if_neg h, hls]
        by_cases hgt : 5 * i > 4 * (cl * 3)
        · rw [hres, if_pos hgt]
          simp only [List.length_take]
          omega
        · rw [hres, if_neg hgt]
          simp [List.length_take]
  · intro h
    simp only [truncateToContext]
    rw [if_pos h]
  · intro i hnot hls hgt
    have hspec := lastIdxOf_spec ' ' (text.take (cl * 3)) i hls
    have hres : truncateToContext cl text = (text.take (cl * 3)).take i := by
      have hq : truncateToContext cl text =
          if 5 * i > 4 * (cl * 3) then (text.take (cl * 3)).take i
          else text.take (cl * 3) := by
        simp only [truncateToContext]; rw [if_neg hnot, hls]
      rw [hq, if_pos hgt]
    have hilt : i < (text.take (cl * 3)).length := hspec.1
    rw [List.length_take] at hilt
    right
    rw [hres]
    have hlen : ((text.take (cl * 3)).take i).length = i := by
      simp only [List.length_take]
      omega
    rw [hlen]
    have hget := hspec.2
    rwa [List.get?_take (by omega)] at hget

/-- Witness for C6 at concrete inputs: with context length 2 (limit 6), the
8-character input abcde fg is cut at its last in-window space (past 80% of
the limit) and the 2-character input ab is transmitted unchanged; the
one-element batch reaches the OpenAI call in truncated form. -/
theorem c6_truncate_props_witness :
    (∃ suffix, truncateToContext 2 (("abcde fg").data) ++ suffix = ("abcde fg").data) ∧
    truncateToContext 2 (("ab").data) = ("ab").data ∧
    endsAtWordBoundary (("abcde fg").data) (truncateToContext 2 (("abcde fg").data)) ∧
    Embeddings.embedBatch 2 .openai c2te c2ob [("ab").data] =
      match c2ob ([("ab").data].map (truncateToContext 2)) with
      | .error e => .error e
      | .ok data => .ok ((sortByIdx data).map (·.2)) := by
  refine ⟨?_, ?_, ?_, ?_⟩
  · exact (c6_truncate_props 2 c2te c2te c2ob (("abcde fg").data) []).2.2.2.1
  · exact (c6_truncate_props 2 c2te c2te c2ob (("ab").data) []).2.2.2.2.2.1 (by decide)
  · exact (c6_truncate_props 2 c2te c2te c2ob (("abcde fg").data) []).2.2.2.2.2.2 5
      (by decide) (by decide) (by decide)
  · exact (c6_truncate_props 2 c2te c2te c2ob (("ab").data)
      [("ab").data]).2.2.1 (by decide)

/-- C4 counterexample: the malformed numeric option value abc for
dedup-threshold is not rejected: the action reaches the sleep-cycle run
(which performs store initialization and the cycle itself) and passes NaN
through as the dedup threshold, so the claim that every malformed numeric
option — including the dedup threshold — is rejected with an error before
any I/O is false. -/
theorem c4_sleep_validation_counterexample :
    sleepCliAction { dedupThreshold := some ("abc") } =
      .run none (some .nan) none none none none none none := by
  rfl

/-- C4 (amended): each of the six validated sleep-cycle options (batch
size, delay, decay half-life, decay threshold, pareto percentile, promotion
minimum age), when malformed or out of range, makes the command return a
descriptive validation error before store initialization and before
`runSleepCycle`, with no partial effect; the dedup threshold is the one
numeric option that is not validated. -/
theorem c4_sleep_validation (o : SleepOpts)
    (h : badOpt (optNum jsParseInt o.batchSize) (fun n => n.leQ 0) = true ∨
      badOpt (optNum jsParseInt o.delay) (fun n => n.ltQ 0) = true ∨
      badOpt (optNum jsParseInt o.decayHalfLife) (fun n => n.leQ 0) = true ∨
      badOpt (optNum jsParseFloat o.decayThreshold)
        (fun n => n.ltQ 0 || n.gtQ 1) = true ∨
      badOpt (optNum jsParseFloat o.pareto)
        (fun n => n.ltQ 0 || n.gtQ 1) = true ∨
      badOpt (optNum jsParseInt o.promotionMinAge) (fun n => n.ltQ 0) = true) :
    ∃ msg, sleepCliAction o = .validationError msg := by
  simp only [sleepCliAction]
  split
  next => exact ⟨_, rfl⟩
  next h1 =>
    split
    next => exact ⟨_, rfl⟩
    next h2 =>
      split
      next => exact ⟨_, rfl⟩
      next h3 =>
        split
        next => exact ⟨_, rfl⟩
        next h4 =>
          split
          next => exact ⟨_, rfl⟩
          next h5 =>
            split
            next => exact ⟨_, rfl⟩
            next h6 =>
              rcases h with h | h | h | h | h | h
              exacts [absurd h h1, absurd h h2, absurd h h3, absurd h h4,
                absurd h h5, absurd h h6]

/-- Witness for C4 at a concrete input: the malformed batch size x parses
to NaN and is rejected. -/
theorem c4_sleep_validation_witness :
    ∃ msg, sleepCliAction { batchSize := some ("x") } = .validationError msg :=
  c4_sleep_validation { batchSize := some ("x") } (Or.inl (by decide))

/-- The per-item loop collects exactly the successfully stored items, in
order, independently of the failures of the other items. -/
theorem capturedList_eq_filterMap (f : String → Except String (Option MemoryRec))
    (l : List String) :
    capturedList f l = l.filterMap (fun t =>
      match f t with
      | .ok (some m) => some m
      | .ok none => none
      | .error _ => none) := by
  induction l with
  | nil => rfl
  | cons t ts ih =>
    cases hft : f t with
    | error e => simp [capturedList, List.filterMap_cons, hft, ih]
    | ok o =>
      cases o with
      | none => simp [capturedList, List.filterMap_cons, hft, ih]
      | some m => simp [capturedList, List.filterMap_cons, hft, ih]

/-- C5: the auto-capture hook never raises to the host — for every oracle
behavior (including embedding, rating and store failures) it returns an
`ok` result — and the stored memories are exactly the per-item successes of
the gated user and assistant messages, the outcome of each item depending only on
its own collaborator calls, so an error on one item cannot prevent the
processing of the remaining messages. -/
theorem c5_auto_capture_isolated {α : Type}
    (embed : String → Except String (List ℚ))
    (findSimilar : List ℚ → ℚ → Nat → Except String (List SimilarHit))
    (rate : String → Except String ℚ)
    (store : MemoryRec → Except String Unit)
    (extractUser extractAssistant : List α → List String)
    (ee : Bool) (agentId : String) (sk : Option String)
    (uuid : String → String) (success : Bool) (messages : List α) :
    agentEndHook embed findSimilar rate store extractUser extractAssistant ee
      agentId sk uuid success messages =
      .ok (if !success || messages.isEmpty then []
        else
          ((extractUser messages).filter passesAttentionGate).filterMap
            (fun t =>
              match captureUserItem embed findSimilar rate store ee agentId
                  sk uuid t with
              | .ok (some m) => some m
              | .ok none => none
              | .error _ => none) ++
          ((extractAssistant messages).filter
              passesAssistantAttentionGate).filterMap
            (fun t =>
              match captureAssistantItem embed findSimilar rate store ee
                  agentId sk uuid t with
              | .ok (some m) => some m
              | .ok none => none
              | .error _ => none)) := by
  simp only [agentEndHook]
  by_cases h : (!success || messages.isEmpty) = true
  · rw [if_pos h, if_pos h]
  · rw [if_neg h, if_neg h]
    rw [capturedList_eq_filterMap, capturedList_eq_filterMap]

/-- C10: in the assistant auto-capture path, a message is stored only when
its rated importance is at least 0.7, and the stored memory then carries
importance exactly min(rated, 0.4) = 0.4 (the cap always binds), source
auto-capture-assistant and category other. -/
theorem c10_assistant_importance
    (embed : String → Except String (List ℚ))
    (findSimilar : List ℚ → ℚ → Nat → Except String (List SimilarHit))
    (rate : String → Except String ℚ)
    (store : MemoryRec → Except String Unit)
    (ee : Bool) (agentId : String) (sk : Option String)
    (uuid : String → String) (text : String) (imp : ℚ) (m : MemoryRec)
    (hr : rate text = .ok imp)
    (hs : captureAssistantItem embed findSimilar rate store ee agentId sk
      uuid text = .ok (some m)) :
    7 / 10 ≤ imp ∧ m.importance = 2 / 5 ∧
      m.source = "auto-capture-assistant" ∧ m.category = "other" := by
  unfold captureAssistantItem at hs
  rw [hr] at hs
  simp only [] at hs
  by_cases himp : imp < 7 / 10
  · rw [if_pos himp] at hs
    cases hs
  · rw [if_neg himp] at hs
    split at hs
    · cases hs
    · split at hs
      · cases hs
      · cases hs
      · split at hs
        · cases hs
        · simp only [Except.ok.injEq, Option.some.injEq] at hs
          subst hs
          refine ⟨not_lt.mp himp, ?_, rfl, rfl⟩
          exact min_eq_right (le_trans (by norm_num) (not_lt.mp himp))

/-- Witness embedding oracle for C10. -/
def c10embed : String → Except String (List ℚ) := fun _ => .ok [1]

/-- Witness similarity oracle for C10: no duplicates. -/
def c10find : List ℚ → ℚ → Nat → Except String (List SimilarHit) :=
  fun _ _ _ => .ok []

/-- Witness rating oracle for C10: importance 0.8. -/
def c10rate : String → Except String ℚ := fun _ => .ok (8 / 10)

/-- Witness store oracle for C10: always succeeds. -/
def c10store : MemoryRec → Except String Unit := fun _ => .ok ()

/-- The memory stored by the C10 witness run. -/
def c10WitnessMem : MemoryRec :=
  { id := "aid", text := "t", embedding := [1],
    importance := min (8 / 10 : ℚ) (2 / 5), category := "other",
    source := "auto-capture-assistant", extractionStatus := "skipped",
    agentId := "default", sessionKey := none }

/-- Witness for C10 at concrete inputs. -/
theorem c10_assistant_importance_witness :
    (7 / 10 : ℚ) ≤ 8 / 10 ∧ c10WitnessMem.importance = 2 / 5 ∧
      c10WitnessMem.source = "auto-capture-assistant" ∧
      c10WitnessMem.category = "other" :=
  c10_assistant_importance c10embed c10find c10rate c10store false
    ("default") none (fun _ => "aid") ("t") (8 / 10) c10WitnessMem rfl
    (by
      rw [show captureAssistantItem c10embed c10find c10rate c10store false
          ("default") none (fun _ => "aid") ("t") =
          (if (8 / 10 : ℚ) < 7 / 10 then .ok none
           else .ok (some c10WitnessMem)) from rfl]
      rw [if_neg (by norm_num)])

/-- C9: `memory_forget` behaves by case: given a non-empty memoryId, the
outcome is deleted or not-found according to what the store reports, with
one delete call; given only a non-empty query, a deletion happens exactly
when the vector search returns a single result with score above 0.9 (the
other search shapes return the zero-found outcome or the candidate list and
issue no delete call); given neither parameter the call returns the
missing-parameter outcome and performs no I/O at all. -/
theorem c9_memory_forget
    (deleteMem : String → Except String Bool)
    (embed : String → Except String (List ℚ))
    (vectorSearch : List ℚ → Nat → ℚ → Except String (List SearchHit)) :
    (∀ (mid : String) (q : Option String) (b : Bool), mid ≠ "" →
      deleteMem mid = .ok b →
      memoryForgetExecute deleteMem embed vectorSearch (some mid) q =
        (.ok (if b then .deleted mid else .notFound mid),
         [.deleteCall mid])) ∧
    (∀ (memoryId : Option String) (q : String) (v : List ℚ)
        (rs : List SearchHit),
      (memoryId = none ∨ memoryId = some ("")) → q ≠ "" →
      embed q = .ok v → vectorSearch v 5 (7 / 10) = .ok rs →
      (rs = [] →
        memoryForgetExecute deleteMem embed vectorSearch memoryId (some q) =
          (.ok .zeroFound, [.embedCall q, .searchCall 5 (7 / 10)])) ∧
      (∀ r b, rs = [r] → r.score > 9 / 10 → deleteMem r.id = .ok b →
        memoryForgetExecute deleteMem embed vectorSearch memoryId (some q) =
          (.ok (.deleted r.id),
           [.embedCall q, .searchCall 5 (7 / 10), .deleteCall r.id])) ∧
      (∀ r, rs = [r] → ¬ r.score > 9 / 10 →
        memoryForgetExecute deleteMem embed vectorSearch memoryId (some q) =
          (.ok (.candidates [r]), [.embedCall q, .searchCall 5 (7 / 10)])) ∧
      (∀ r1 r2 rest, rs = r1 :: r2 :: rest →
        memoryForgetExecute deleteMem embed vectorSearch memoryId (some q) =
          (.ok (.candidates rs),
           [.embedCall q, .searchCall 5 (7 / 10)]))) ∧
    (∀ (memoryId query : Option String),
      (memoryId = none ∨ memoryId = some ("")) →
      (query = none ∨ query = some ("")) →
      memoryForgetExecute deleteMem embed vectorSearch memoryId query =
        (.ok .missingParam, [])) := by
  refine ⟨?_, ?_, ?_⟩
  · intro mid q b hne hdel
    cases b
    · simp [memoryForgetExecute, hdel, hne]
    · simp [memoryForgetExecute, hdel, hne]
  · intro memoryId q v rs hmid hq hembed hsearch
    have hbase : memoryForgetExecute deleteMem embed vectorSearch memoryId
        (some q) = forgetByQuery deleteMem embed vectorSearch q := by
      rcases hmid with rfl | rfl
      · simp [memoryForgetExecute, hq]
      · simp [memoryForgetExecute, hq]
    refine ⟨?_, ?_, ?_, ?_⟩
    · rintro rfl
      rw [hbase]
      simp [forgetByQuery, hembed, hsearch]
    · rintro r b rfl hscore hdel
      rw [hbase]
      simp only [forgetByQuery, hembed, hsearch]
      rw [if_pos hscore, hdel]
    · rintro r rfl hscore
      rw [hbase]
      simp only [forgetByQuery, hembed, hsearch]
      rw [if_neg hscore]
    · rintro r1 r2 rest rfl
      rw [hbase]
      simp [forgetByQuery, hembed, hsearch]
  · intro memoryId query hmid hq
    rcases hmid with rfl | rfl <;> rcases hq with rfl | rfl <;>
      simp [memoryForgetExecute]

/-- Witness delete oracle for C9: the store reports the memory deleted. -/
def c9del : String → Except String Bool := fun _ => .ok true

/-- Witness embedding oracle for C9. -/
def c9embed : String → Except String (List ℚ) := fun _ => .ok [1]

/-- Witness vector-search oracle for C9: no match. -/
def c9search : List ℚ → Nat → ℚ → Except String (List SearchHit) :=
  fun _ _ _ => .ok []

/-- Witness for C9 at concrete inputs: delete by id, a zero-result query,
and the missing-parameter case. -/
theorem c9_memory_forget_witness :
    memoryForgetExecute c9del c9embed c9search (some ("m1")) none =
      (.ok (if true then .deleted ("m1") else .notFound ("m1")),
       [.deleteCall ("m1")]) ∧
    memoryForgetExecute c9del c9embed c9search none (some ("find")) =
      (.ok .zeroFound, [.embedCall ("find"), .searchCall 5 (7 / 10)]) ∧
    memoryForgetExecute c9del c9embed c9search none none =
      (.ok .missingParam, []) := by
  refine ⟨?_, ?_, ?_⟩
  · exact (c9_memory_forget c9del c9embed c9search).1 ("m1") none true
      (by decide) rfl
  · exact ((c9_memory_forget c9del c9embed c9search).2.1 none ("find") [1] []
      (Or.inl rfl) (by decide) rfl rfl).1 rfl
  · exact (c9_memory_forget c9del c9embed c9search).2.2 none none
      (Or.inl rfl) (Or.inl rfl)
